import Mathlib

/-!
Formal model of the HerShield backend (`backend/maincctv.py`): the alert
decision chain of the main capture loop, the CSV incident sink
(`log_incident`), the nighttime predicate (`is_nighttime`), the geolocation
fallback (`get_location`) and the SOS-gesture flag (`detect_sos_gesture`).
Machine inference (YOLO person detection, gender classification, MediaPipe
hand landmarks) is external: its outputs (`num_males`, `num_females`, the
landmark coordinates) enter the model as parameters, exactly as the Python
code consumes them.
-/

namespace HerShield

/-- Latitude/longitude pair, as returned by the geocoder in `g.latlng`.
Modelled over ℚ (the Python floats carry no arithmetic in this code:
they are only stored and written out). -/
abbrev Coords := ℚ × ℚ

/-- `is_nighttime` from `maincctv.py`: `current_hour < 6 or current_hour >= 18`,
with `current_hour = datetime.now().hour` passed in explicitly. -/
def is_nighttime (current_hour : Nat) : Bool :=
  decide (current_hour < 6) || decide (18 ≤ current_hour)

/-- The observable part of a `geocoder.ip` result: the `ok` flag and
the `latlng`/`city` fields read by `get_location`. -/
structure GeocoderResult where
  ok : Bool
  latlng : Option Coords
  city : String

/-- `get_location` from `maincctv.py`:
`(g.latlng, g.city) if g.ok else (None, "Unknown")`. -/
def get_location (g : GeocoderResult) : Option Coords × String :=
  if g.ok then (g.latlng, g.city) else ((none : Option Coords), "Unknown")

/-- One CSV cell as handed to `csv.writer.writerow`: either a string or the
(possibly `None`) coordinate pair `location[0]`. -/
inductive Cell where
  | str : String → Cell
  | coords : Option Coords → Cell
deriving DecidableEq

/-- The header row `["Date", "Time", "Incident Type", "Location", "Coordinates"]`
written by `log_incident` when the CSV file does not yet exist. -/
def headerCells : List Cell :=
  [Cell.str "Date", Cell.str "Time", Cell.str "Incident Type",
   Cell.str "Location", Cell.str "Coordinates"]

/-- The data row `[date, time, incident_type, location[1], location[0]]`
written by `log_incident` on every call. -/
def dataRow (date time incident_type : String) (location : Option Coords × String) :
    List Cell :=
  [Cell.str date, Cell.str time, Cell.str incident_type,
   Cell.str location.2, Cell.coords location.1]

/-- The state of `incident_reports.csv`: `content = none` means the file does
not exist (`os.path.isfile` is false); `failure` is a pending I/O error
(permission denied, disk full): while it is set, every open-for-append or
row write raises it. -/
structure FS where
  content : Option (List (List Cell))
  failure : Option String

/-- One `writer.writerow` against the file opened in append mode: raises the
pending I/O error if there is one, otherwise appends the row (creating the
file when absent, as opening in append mode does). -/
def fsAppendRow (fs : FS) (row : List Cell) : Except String FS :=
  match fs.failure with
  | some e => Except.error e
  | none => Except.ok { content := some (fs.content.getD [] ++ [row]), failure := none }

/-- `log_incident` from `maincctv.py`: checks `os.path.isfile`, opens the CSV
in append mode, writes the header row exactly when the file did not exist,
then writes the one data row. The Python body has no `try`/`except`, so any
error a file operation raises propagates to the caller unhandled. -/
def log_incident (fs : FS) (incident_type : String) (location : Option Coords × String)
    (date time : String) : Except String FS :=
  match (if fs.content.isSome then Except.ok fs else fsAppendRow fs headerCells) with
  | Except.error e => Except.error e
  | Except.ok fs1 => fsAppendRow fs1 (dataRow date time incident_type location)

/-- File content after `log_incident` ensures a header: the existing rows,
or just the header row when the file did not exist. -/
def ensureHeader : Option (List (List Cell)) → List (List Cell)
  | none => [headerCells]
  | some rows => rows

/-- Which of the three alert rules fired on a frame (the spec's
`IncidentCondition`). -/
inductive IncidentCondition where
  | loneWomanAtNight : IncidentCondition
  | sosGesture : IncidentCondition
  | womanSurroundedByMales : Nat → IncidentCondition
deriving DecidableEq

/-- The literal `incident_type` string each alert branch of the main loop
passes to `log_incident`. -/
def incidentLabel : IncidentCondition → String
  | IncidentCondition.loneWomanAtNight => "Woman Alone at Night"
  | IncidentCondition.sosGesture => "SOS Gesture Detected"
  | IncidentCondition.womanSurroundedByMales n =>
      "1 Female with " ++ toString n ++ " Males"

/-- The decision chain of the main loop: three `if not alert_triggered and ...`
blocks in order (Condition 1: night, one female, no males; Condition 2: SOS
gesture; Condition 3: one female, more than one male); `alert_triggered`
makes each block run only when no earlier block fired. -/
def decisionEngine (night : Bool) (num_males num_females : Nat)
    (sos_detected : Bool) : Option IncidentCondition :=
  if night && num_females == 1 && num_males == 0 then
    some IncidentCondition.loneWomanAtNight
  else if sos_detected then
    some IncidentCondition.sosGesture
  else if num_females == 1 && decide (1 < num_males) then
    some (IncidentCondition.womanSurroundedByMales num_males)
  else
    none

/-- One iteration of the main loop after detection: the three guarded alert
blocks, each calling `log_incident` with its literal incident string; returns
the updated file state and which condition (if any) fired. Sound playback and
drawing are frame-local side effects with no bearing on the incident store. -/
def processFrame (fs : FS) (night : Bool) (num_males num_females : Nat)
    (sos_detected : Bool) (location : Option Coords × String) (date time : String) :
    Except String (FS × Option IncidentCondition) :=
  if night && num_females == 1 && num_males == 0 then
    match log_incident fs "Woman Alone at Night" location date time with
    | Except.error e => Except.error e
    | Except.ok fs' => Except.ok (fs', some IncidentCondition.loneWomanAtNight)
  else if sos_detected then
    match log_incident fs "SOS Gesture Detected" location date time with
    | Except.error e => Except.error e
    | Except.ok fs' => Except.ok (fs', some IncidentCondition.sosGesture)
  else if num_females == 1 && decide (1 < num_males) then
    match log_incident fs ("1 Female with " ++ toString num_males ++ " Males")
        location date time with
    | Except.error e => Except.error e
    | Except.ok fs' =>
        Except.ok (fs', some (IncidentCondition.womanSurroundedByMales num_males))
  else
    Except.ok (fs, none)

/-- The arguments of one `log_incident` call. -/
structure IncidentEntry where
  incident_type : String
  location : Option Coords × String
  date : String
  time : String

/-- The data row `log_incident` writes for one entry. -/
def entryRow (e : IncidentEntry) : List Cell :=
  dataRow e.date e.time e.incident_type e.location

/-- A sequence of `log_incident` calls against the same file. -/
def appendIncidents : FS → List IncidentEntry → Except String FS
  | fs, [] => Except.ok fs
  | fs, e :: es =>
    match log_incident fs e.incident_type e.location e.date e.time with
    | Except.error err => Except.error err
    | Except.ok fs' => appendIncidents fs' es

/-- MediaPipe hand-landmark index `HandLandmark.THUMB_TIP`. -/
def THUMB_TIP : Nat := 4

/-- MediaPipe hand-landmark index `HandLandmark.INDEX_FINGER_TIP`. -/
def INDEX_FINGER_TIP : Nat := 8

/-- One hand landmark: normalized x and y coordinates. Modelled over ℚ: the
code only compares landmark differences against the literal 0.02. -/
structure Landmark where
  x : ℚ
  y : ℚ

/-- One detected hand: its landmark list (MediaPipe reports 21 landmarks per
hand, so the tip indices 4 and 8 are always in range). -/
structure Hand where
  landmark : List Landmark

/-- `hand_landmarks.landmark[mp_hands.HandLandmark.THUMB_TIP]`. -/
def thumb_tip (hand_landmarks : Hand) : Landmark :=
  hand_landmarks.landmark.getD THUMB_TIP ⟨0, 0⟩

/-- `hand_landmarks.landmark[mp_hands.HandLandmark.INDEX_FINGER_TIP]`. -/
def index_tip (hand_landmarks : Hand) : Landmark :=
  hand_landmarks.landmark.getD INDEX_FINGER_TIP ⟨0, 0⟩

/-- The per-hand test inside `detect_sos_gesture`:
`abs(thumb_tip.x - index_tip.x) < 0.02 and abs(thumb_tip.y - index_tip.y) < 0.02`. -/
def close_pinch (hand_landmarks : Hand) : Bool :=
  decide (|(thumb_tip hand_landmarks).x - (index_tip hand_landmarks).x| < 0.02) &&
  decide (|(thumb_tip hand_landmarks).y - (index_tip hand_landmarks).y| < 0.02)

/-- `detect_sos_gesture` from `maincctv.py`: `sos_detected` starts false and
is set to true by any hand whose thumb and index tips are within 0.02 in both
coordinates; an absent `result.multi_hand_landmarks` is the empty list. -/
def detect_sos_gesture (multi_hand_landmarks : List Hand) : Bool :=
  multi_hand_landmarks.foldl
    (fun sos_detected hand_landmarks =>
      if close_pinch hand_landmarks then true else sos_detected)
    false

/- Helper lemmas (shared). -/

/-- On a file system with no pending I/O error, `log_incident` succeeds and
appends exactly one data row, after a header when the file did not exist. -/
theorem log_incident_ok (store : Option (List (List Cell))) (t : String)
    (loc : Option Coords × String) (d tm : String) :
    log_incident ⟨store, none⟩ t loc d tm =
      Except.ok ⟨some (ensureHeader store ++ [dataRow d tm t loc]), none⟩ := by
  cases store <;> rfl

/-- `processFrame` is the decision chain followed by at most one
`log_incident` carrying the label of the fired condition. -/
theorem processFrame_spec (fs : FS) (night : Bool) (num_males num_females : Nat)
    (sos_detected : Bool) (loc : Option Coords × String) (d tm : String)
    (hfail : fs.failure = none) :
    processFrame fs night num_males num_females sos_detected loc d tm =
      match decisionEngine night num_males num_females sos_detected with
      | none => Except.ok (fs, none)
      | some c =>
          Except.ok (⟨some (ensureHeader fs.content ++ [dataRow d tm (incidentLabel c) loc]),
            none⟩, some c) := by
  obtain ⟨store, failure⟩ := fs
  cases hfail
  unfold processFrame decisionEngine
  split_ifs <;> simp [log_incident_ok, incidentLabel]

/- Claim theorems. -/

/-- C1: the `LoneWomanAtNight` condition fires if and only if it is nighttime,
`num_females == 1` and `num_males == 0`, regardless of `sos_detected`. -/
theorem C1_lone_woman_at_night_fires_iff (night : Bool) (num_males num_females : Nat)
    (sos_detected : Bool) :
    decisionEngine night num_males num_females sos_detected =
        some IncidentCondition.loneWomanAtNight ↔
      night = true ∧ num_females = 1 ∧ num_males = 0 := by
  unfold decisionEngine
  split_ifs with h1 h2 h3 <;> simp_all

/-- C2: the `SosGesture` condition fires if and only if the
`LoneWomanAtNight` condition did not fire on that frame and
`sos_detected == true`. -/
theorem C2_sos_gesture_fires_iff (night : Bool) (num_males num_females : Nat)
    (sos_detected : Bool) :
    decisionEngine night num_males num_females sos_detected =
        some IncidentCondition.sosGesture ↔
      decisionEngine night num_males num_females sos_detected ≠
          some IncidentCondition.loneWomanAtNight ∧
        sos_detected = true := by
  unfold decisionEngine
  split_ifs with h1 h2 h3 <;> simp_all

/-- C3: `WomanSurroundedByMales(num_males)` fires if and only if neither
`LoneWomanAtNight` nor `SosGesture` fired on that frame and
`num_females == 1` and `num_males > 1`; in every remaining combination of
inputs no incident is produced. -/
theorem C3_woman_surrounded_fires_iff (night : Bool) (num_males num_females : Nat)
    (sos_detected : Bool) :
    (decisionEngine night num_males num_females sos_detected =
        some (IncidentCondition.womanSurroundedByMales num_males) ↔
      decisionEngine night num_males num_females sos_detected ≠
          some IncidentCondition.loneWomanAtNight ∧
        decisionEngine night num_males num_females sos_detected ≠
          some IncidentCondition.sosGesture ∧
        num_females = 1 ∧ 1 < num_males) ∧
    (decisionEngine night num_males num_females sos_detected = none ↔
      ¬(night = true ∧ num_females = 1 ∧ num_males = 0) ∧
        sos_detected = false ∧ ¬(num_females = 1 ∧ 1 < num_males)) := by
  unfold decisionEngine
  split_ifs with h1 h2 h3 <;> simp_all

/-- C4: per frame, at most one incident is created: the rules are mutually
exclusive, the first match in the order LoneWomanAtNight, SosGesture,
WomanSurroundedByMales wins and short-circuits the rest, and the input
satisfying rules 1 and 2 at once (night, 1 female, 0 males, gesture true)
yields LoneWomanAtNight, not SosGesture. -/
theorem C4_at_most_one_incident_per_frame (fs : FS) (night : Bool)
    (num_males num_females : Nat) (sos_detected : Bool)
    (loc : Option Coords × String) (d tm : String)
    (hfail : fs.failure = none) :
    (processFrame fs night num_males num_females sos_detected loc d tm =
        Except.ok (fs, (none : Option IncidentCondition)) ∨
      ∃ c, decisionEngine night num_males num_females sos_detected = some c ∧
        processFrame fs night num_males num_females sos_detected loc d tm =
          Except.ok (⟨some (ensureHeader fs.content ++
            [dataRow d tm (incidentLabel c) loc]), none⟩, some c)) ∧
    decisionEngine true 0 1 true = some IncidentCondition.loneWomanAtNight := by
  refine ⟨?_, rfl⟩
  rw [processFrame_spec fs night num_males num_females sos_detected loc d tm hfail]
  cases h : decisionEngine night num_males num_females sos_detected with
  | none => exact Or.inl rfl
  | some c => exact Or.inr ⟨c, rfl, rfl⟩

/-- Witness for C4 at a concrete frame: empty store, nighttime, one female,
no males, gesture raised — exactly one record, for LoneWomanAtNight. -/
theorem C4_witness :
    (processFrame ⟨none, none⟩ true 0 1 true ((none : Option Coords), "Unknown")
        "2025-01-01" "22:00:00" =
        Except.ok ((⟨none, none⟩ : FS), (none : Option IncidentCondition)) ∨
      ∃ c, decisionEngine true 0 1 true = some c ∧
        processFrame ⟨none, none⟩ true 0 1 true ((none : Option Coords), "Unknown")
            "2025-01-01" "22:00:00" =
          Except.ok (⟨some (ensureHeader (none : Option (List (List Cell))) ++
            [dataRow "2025-01-01" "22:00:00" (incidentLabel c)
              ((none : Option Coords), "Unknown")]), none⟩, some c)) ∧
    decisionEngine true 0 1 true = some IncidentCondition.loneWomanAtNight :=
  C4_at_most_one_incident_per_frame ⟨none, none⟩ true 0 1 true
    ((none : Option Coords), "Unknown") "2025-01-01" "22:00:00" rfl

/-- C5: the persisted label of a fired condition is exactly
"Woman Alone at Night" for LoneWomanAtNight, "SOS Gesture Detected" for
SosGesture, and "1 Female with " ++ n ++ " Males" for
WomanSurroundedByMales n (n = 3 gives "1 Female with 3 Males"). -/
theorem C5_incident_label_persisted (fs : FS) (night : Bool)
    (num_males num_females : Nat) (sos_detected : Bool)
    (loc : Option Coords × String) (d tm : String) (c : IncidentCondition)
    (hfail : fs.failure = none)
    (hc : decisionEngine night num_males num_females sos_detected = some c) :
    processFrame fs night num_males num_females sos_detected loc d tm =
      Except.ok (⟨some (ensureHeader fs.content ++
        [dataRow d tm (incidentLabel c) loc]), none⟩, some c) ∧
    incidentLabel IncidentCondition.loneWomanAtNight = "Woman Alone at Night" ∧
    incidentLabel IncidentCondition.sosGesture = "SOS Gesture Detected" ∧
    (∀ n : Nat, incidentLabel (IncidentCondition.womanSurroundedByMales n) =
      "1 Female with " ++ toString n ++ " Males") ∧
    incidentLabel (IncidentCondition.womanSurroundedByMales 3) =
      "1 Female with 3 Males" := by
  refine ⟨?_, rfl, rfl, fun n => rfl, rfl⟩
  rw [processFrame_spec fs night num_males num_females sos_detected loc d tm hfail, hc]

/-- Witness for C5 at a concrete frame: daytime, three males, one female —
the persisted label is "1 Female with 3 Males". -/
theorem C5_witness :
    processFrame ⟨none, none⟩ false 3 1 false ((none : Option Coords), "Unknown")
        "2025-01-01" "12:00:00" =
      Except.ok (⟨some (ensureHeader (none : Option (List (List Cell))) ++
        [dataRow "2025-01-01" "12:00:00"
          (incidentLabel (IncidentCondition.womanSurroundedByMales 3))
          ((none : Option Coords), "Unknown")]), none⟩,
        some (IncidentCondition.womanSurroundedByMales 3)) ∧
    incidentLabel IncidentCondition.loneWomanAtNight = "Woman Alone at Night" ∧
    incidentLabel IncidentCondition.sosGesture = "SOS Gesture Detected" ∧
    (∀ n : Nat, incidentLabel (IncidentCondition.womanSurroundedByMales n) =
      "1 Female with " ++ toString n ++ " Males") ∧
    incidentLabel (IncidentCondition.womanSurroundedByMales 3) =
      "1 Female with 3 Males" :=
  C5_incident_label_persisted ⟨none, none⟩ false 3 1 false
    ((none : Option Coords), "Unknown") "2025-01-01" "12:00:00"
    (IncidentCondition.womanSurroundedByMales 3) rfl rfl

/-- C9: the nighttime predicate returns true if and only if the current local
hour is strictly less than 6 or at least 18. -/
theorem C9_is_nighttime_iff (current_hour : Nat) :
    is_nighttime current_hour = true ↔ current_hour < 6 ∨ 18 ≤ current_hour := by
  simp [is_nighttime]

/-- On an existing file with no pending error, a sequence of `log_incident`
calls appends exactly the data rows of the entries, in order. -/
theorem appendIncidents_ok (entries : List IncidentEntry) (rows : List (List Cell)) :
    appendIncidents ⟨some rows, none⟩ entries =
      Except.ok ⟨some (rows ++ entries.map entryRow), none⟩ := by
  induction entries generalizing rows with
  | nil => simp [appendIncidents]
  | cons e es ih =>
      rw [appendIncidents, log_incident_ok]
      simpa [ensureHeader, entryRow] using ih (rows ++ [entryRow e])

/-- C6: `log_incident` writes the header row exactly when the file does not
yet exist and appends exactly one 5-field data row per call; N sequential
appends from an empty store yield N+1 rows, header first, data rows in write
order, with pre-existing rows left unchanged. -/
theorem C6_append_semantics (t : String) (loc : Option Coords × String)
    (d tm : String) (rows : List (List Cell)) (entries : List IncidentEntry)
    (hne : entries ≠ []) :
    log_incident ⟨none, none⟩ t loc d tm =
        Except.ok ⟨some [headerCells, dataRow d tm t loc], none⟩ ∧
    log_incident ⟨some rows, none⟩ t loc d tm =
        Except.ok ⟨some (rows ++ [dataRow d tm t loc]), none⟩ ∧
    headerCells = [Cell.str "Date", Cell.str "Time", Cell.str "Incident Type",
        Cell.str "Location", Cell.str "Coordinates"] ∧
    (dataRow d tm t loc).length = 5 ∧
    appendIncidents ⟨none, none⟩ entries =
        Except.ok ⟨some (headerCells :: entries.map entryRow), none⟩ ∧
    (headerCells :: entries.map entryRow).length = entries.length + 1 := by
  refine ⟨log_incident_ok none t loc d tm, log_incident_ok (some rows) t loc d tm,
    rfl, rfl, ?_, by simp⟩
  cases entries with
  | nil => exact absurd rfl hne
  | cons e es =>
      rw [appendIncidents, log_incident_ok]
      simpa [ensureHeader, entryRow] using appendIncidents_ok es [headerCells, entryRow e]

/-- Witness for C6: two appends to an empty store give a header row followed
by the two data rows. -/
theorem C6_witness :
    log_incident ⟨none, none⟩ "SOS Gesture Detected"
        ((none : Option Coords), "Unknown") "2025-01-01" "22:00:00" =
        Except.ok ⟨some [headerCells,
          dataRow "2025-01-01" "22:00:00" "SOS Gesture Detected"
            ((none : Option Coords), "Unknown")], none⟩ ∧
    log_incident ⟨some [], none⟩ "SOS Gesture Detected"
        ((none : Option Coords), "Unknown") "2025-01-01" "22:00:00" =
        Except.ok ⟨some ([] ++ [dataRow "2025-01-01" "22:00:00" "SOS Gesture Detected"
          ((none : Option Coords), "Unknown")]), none⟩ ∧
    headerCells = [Cell.str "Date", Cell.str "Time", Cell.str "Incident Type",
        Cell.str "Location", Cell.str "Coordinates"] ∧
    (dataRow "2025-01-01" "22:00:00" "SOS Gesture Detected"
        ((none : Option Coords), "Unknown")).length = 5 ∧
    appendIncidents ⟨none, none⟩
        [⟨"Woman Alone at Night", ((none : Option Coords), "Unknown"),
            "2025-01-01", "22:00:01"⟩,
          ⟨"SOS Gesture Detected", ((none : Option Coords), "Unknown"),
            "2025-01-01", "22:00:02"⟩] =
        Except.ok ⟨some (headerCells ::
          ([⟨"Woman Alone at Night", ((none : Option Coords), "Unknown"),
              "2025-01-01", "22:00:01"⟩,
            ⟨"SOS Gesture Detected", ((none : Option Coords), "Unknown"),
              "2025-01-01", "22:00:02"⟩] : List IncidentEntry).map entryRow), none⟩ ∧
    (headerCells ::
        ([⟨"Woman Alone at Night", ((none : Option Coords), "Unknown"),
            "2025-01-01", "22:00:01"⟩,
          ⟨"SOS Gesture Detected", ((none : Option Coords), "Unknown"),
            "2025-01-01", "22:00:02"⟩] : List IncidentEntry).map entryRow).length =
      ([⟨"Woman Alone at Night", ((none : Option Coords), "Unknown"),
          "2025-01-01", "22:00:01"⟩,
        ⟨"SOS Gesture Detected", ((none : Option Coords), "Unknown"),
          "2025-01-01", "22:00:02"⟩] : List IncidentEntry).length + 1 :=
  C6_append_semantics "SOS Gesture Detected" ((none : Option Coords), "Unknown")
    "2025-01-01" "22:00:00" []
    [⟨"Woman Alone at Night", ((none : Option Coords), "Unknown"),
        "2025-01-01", "22:00:01"⟩,
      ⟨"SOS Gesture Detected", ((none : Option Coords), "Unknown"),
        "2025-01-01", "22:00:02"⟩]
    (List.cons_ne_nil _ _)

/-- C7: `log_incident` raises exactly when the underlying open/write raises
(the body has no handler), and succeeds exactly when no I/O failure is
pending — it never silently swallows a failure. -/
theorem C7_log_incident_surfaces_failure (fs : FS) (t : String)
    (loc : Option Coords × String) (d tm : String) :
    (∀ e, log_incident fs t loc d tm = Except.error e ↔ fs.failure = some e) ∧
    ((∃ fs', log_incident fs t loc d tm = Except.ok fs') ↔ fs.failure = none) := by
  obtain ⟨store, failure⟩ := fs
  cases failure with
  | none => cases store <;> simp [log_incident_ok]
  | some e0 => cases store <;> simp [log_incident, fsAppendRow]

/-- C8: on geolocation failure `get_location` degrades to coordinates none
and city "Unknown", and the decision chain and incident sink accept that
value: the frame is processed without error and any fired incident is
written with city "Unknown" and empty coordinates. -/
theorem C8_degraded_location_accepted (g : GeocoderResult) (fs : FS)
    (night : Bool) (num_males num_females : Nat) (sos_detected : Bool)
    (d tm : String) (hok : g.ok = false) (hfail : fs.failure = none) :
    get_location g = ((none : Option Coords), "Unknown") ∧
    (processFrame fs night num_males num_females sos_detected (get_location g) d tm =
        Except.ok (fs, (none : Option IncidentCondition)) ∨
      ∃ c, processFrame fs night num_males num_females sos_detected (get_location g) d tm =
        Except.ok (⟨some (ensureHeader fs.content ++
          [[Cell.str d, Cell.str tm, Cell.str (incidentLabel c), Cell.str "Unknown",
            Cell.coords none]]), none⟩, some c)) := by
  have hloc : get_location g = ((none : Option Coords), "Unknown") := by
    simp [get_location, hok]
  refine ⟨hloc, ?_⟩
  rw [processFrame_spec fs night num_males num_females sos_detected (get_location g) d tm hfail]
  cases h : decisionEngine night num_males num_females sos_detected with
  | none => exact Or.inl rfl
  | some c =>
      refine Or.inr ⟨c, ?_⟩
      rw [hloc]
      rfl

/-- Witness for C8: a failed geocoder lookup (latlng present but `ok` false),
nighttime, one female, no males — the record is written with "Unknown". -/
theorem C8_witness :
    get_location ⟨false, some (1, 2), "Delhi"⟩ = ((none : Option Coords), "Unknown") ∧
    (processFrame ⟨none, none⟩ true 0 1 false
        (get_location ⟨false, some (1, 2), "Delhi"⟩) "2025-01-01" "23:00:00" =
        Except.ok ((⟨none, none⟩ : FS), (none : Option IncidentCondition)) ∨
      ∃ c, processFrame ⟨none, none⟩ true 0 1 false
          (get_location ⟨false, some (1, 2), "Delhi"⟩) "2025-01-01" "23:00:00" =
        Except.ok (⟨some (ensureHeader (none : Option (List (List Cell))) ++
          [[Cell.str "2025-01-01", Cell.str "23:00:00", Cell.str (incidentLabel c),
            Cell.str "Unknown", Cell.coords none]]), none⟩, some c)) :=
  C8_degraded_location_accepted ⟨false, some (1, 2), "Delhi"⟩ ⟨none, none⟩
    true 0 1 false "2025-01-01" "23:00:00" rfl rfl

/-- Folding the per-hand update is an or over the list. -/
theorem foldl_sos_eq_any (l : List Hand) (b : Bool) :
    l.foldl (fun sos_detected hand_landmarks =>
        if close_pinch hand_landmarks then true else sos_detected) b =
      (b || l.any close_pinch) := by
  induction l generalizing b with
  | nil => simp
  | cons h t ih =>
      rw [List.foldl_cons, ih]
      cases hb : close_pinch h <;> simp [hb]

/-- C10: the SOS flag is true if and only if some reported hand has its thumb
tip and index-finger tip within 0.02 in both normalized coordinates; with no
hand landmarks the flag is false. -/
theorem C10_sos_flag_iff (multi_hand_landmarks : List Hand) :
    (detect_sos_gesture multi_hand_landmarks = true ↔
      ∃ hand_landmarks ∈ multi_hand_landmarks,
        |(thumb_tip hand_landmarks).x - (index_tip hand_landmarks).x| < 0.02 ∧
        |(thumb_tip hand_landmarks).y - (index_tip hand_landmarks).y| < 0.02) ∧
    detect_sos_gesture [] = false := by
  refine ⟨?_, rfl⟩
  rw [detect_sos_gesture, foldl_sos_eq_any]
  simp [close_pinch, List.any_eq_true]

end HerShield
